import Mathlib

/-!
Verification development for the music-generation backend: a shallow
embedding of the job-lifecycle logic in `main.py`, the request validation
in `models.py`, and the plan formatting in `services/elevenlabs_service.py`,
together with theorems settling the specification claims.

Python strings are embedded as Lean `String`; Python `str.split(sep)` and
`str.strip()` are embedded by the character-level functions `pySplit` and
`pyStrip` below, matching Python semantics. Python dicts used as job
registries are embedded as association lists. Fallible remote calls are
embedded as `Except` values supplied as parameters; background exceptions
are embedded by total functions returning the final record state (an
exception that does not escape is a terminating branch, not an error value).
-/

/-- Whitespace predicate matching Python `str.strip()` for the ASCII
whitespace characters. -/
def pyIsSpace (c : Char) : Bool :=
  c = ' ' || c = '\t' || c = '\n' || c = '\r' || c = '\x0b' || c = '\x0c'

/-- Split a character list on a separator character, Python `str.split(sep)`
semantics: separators delimit fields, empty fields are kept. -/
def pySplitChars (sep : Char) (s : List Char) : List (List Char) :=
  s.foldr
    (fun c acc =>
      if c = sep then [] :: acc
      else
        match acc with
        | [] => [[c]]
        | a :: rest => (c :: a) :: rest)
    [[]]

/-- Python `s.split(sep)` on strings. -/
def pySplit (sep : Char) (s : String) : List String :=
  (pySplitChars sep s.toList).map fun cs => String.mk cs

/-- Python `s.strip()`: drop leading and trailing whitespace. -/
def pyStrip (s : String) : String :=
  String.mk (((s.toList.dropWhile pyIsSpace).reverse.dropWhile pyIsSpace).reverse)

/-- Embeds `models.MusicGenerationRequest` (the validated model). -/
structure MusicGenerationRequest where
  is_instrumental : Bool
  vocal_gender : Option String := none
  lyrics : Option String := none
  style : String
  duration_seconds : Int
deriving DecidableEq

/-- Embeds one element of the `sections` list built by
`format_composition_plan`. -/
structure PlanSection where
  section_name : String
  duration_ms : Int
  lines : List String
  positive_local_styles : List String
  negative_local_styles : List String
deriving DecidableEq

/-- Embeds the dict returned by `format_composition_plan`. -/
structure CompositionPlan where
  sections : List PlanSection
  positive_global_styles : List String
  negative_global_styles : List String
deriving DecidableEq

/-- Embeds `services/elevenlabs_service.py::format_composition_plan`.
Python truthiness of `request.lyrics` and `request.vocal_gender`
(None or empty string is falsy) is made explicit. -/
def format_composition_plan (request : MusicGenerationRequest) : CompositionPlan :=
  let positive_local_styles :=
    ((pySplit ',' request.style).map pyStrip).filter fun s => s ≠ ""
  let negative_local_styles := if request.is_instrumental then ["no vocals"] else []
  let lines : List String :=
    match request.lyrics with
    | some ly =>
        if request.is_instrumental = false ∧ ly ≠ "" then
          let ls := ((pySplit '\n' ly).map pyStrip).filter fun s => s ≠ ""
          if ls = [] then [pyStrip ly] else ls
        else []
    | none => []
  let duration_ms := request.duration_seconds * 1000
  let positive_global_styles : List String :=
    match request.vocal_gender with
    | some g => if request.is_instrumental = false ∧ g ≠ "" then [g ++ " vocal"] else []
    | none => []
  { sections := [{ section_name := "Main Theme"
                 , duration_ms := duration_ms
                 , lines := lines
                 , positive_local_styles := positive_local_styles
                 , negative_local_styles := negative_local_styles }]
  , positive_global_styles := positive_global_styles
  , negative_global_styles := [] }

/-- Embeds the duck-typed acknowledgment object returned by
`elevenlabs_client.compose_detailed`: `task_id` is the first decodable
identifier found by the attribute probes in `generate_music`
(`task_id`, `id`, or the dict lookups), `none` when no probe succeeds;
`audio` and `data` are the corresponding optional payload attributes. -/
structure RemoteResponse where
  task_id : Option String := none
  audio : Option (List Nat) := none
  data : Option (List Nat) := none
deriving DecidableEq

/-- Python truthiness test `hasattr(response, 'audio') and response.audio`
in `generate_music`. -/
def hasAudio (r : RemoteResponse) : Bool :=
  match r.audio with
  | some bs => bs ≠ []
  | none => false

/-- Embeds the duck-typed remote status object inspected by `get_status`:
each field is `some v` when the corresponding attribute or dict key is
present, `none` otherwise. -/
structure StatusResponseRemote where
  status : Option String := none
  progress : Option Int := none
  message : Option String := none
deriving DecidableEq

/-- Embeds the SDK surface probed by
`ElevenLabsClient.get_composition_status`: which status method exists, and
what each returns (`.error m` embeds the method raising an exception whose
`str` is `m`) for a given task id. -/
structure SDK where
  hasGetStatus : Bool
  hasGetCompositionStatus : Bool
  get_status_result : String → Except String StatusResponseRemote
  get_composition_status_result : String → Except String StatusResponseRemote

/-- Python exceptions distinguished by `get_status` in `main.py`:
`NotImplementedError` versus any other `Exception`, each carrying its
`str`. -/
inductive PyExc where
  | notImplemented (msg : String)
  | exc (msg : String)
deriving DecidableEq

/-- Python `str(e)` on an embedded exception. -/
def PyExc.str : PyExc → String
  | .notImplemented m => m
  | .exc m => m

namespace ElevenLabsClient

/-- Body of the `try` block of
`services/elevenlabs_client.py::ElevenLabsClient.get_composition_status`:
probe `get_status`, then `get_composition_status`, else raise
`NotImplementedError`. -/
def get_composition_status_try (sdk : SDK) (task_id : String) :
    Except PyExc StatusResponseRemote :=
  if sdk.hasGetStatus then
    match sdk.get_status_result task_id with
    | .ok r => .ok r
    | .error m => .error (.exc m)
  else if sdk.hasGetCompositionStatus then
    match sdk.get_composition_status_result task_id with
    | .ok r => .ok r
    | .error m => .error (.exc m)
  else .error (.notImplemented "Status checking method not found in SDK")

/-- Embeds `ElevenLabsClient.get_composition_status` including its
`except Exception` clause, which re-raises every error (the
`NotImplementedError` included, since it is raised inside the `try`) as a
plain `Exception` with a wrapped message. -/
def get_composition_status (sdk : SDK) (task_id : String) :
    Except PyExc StatusResponseRemote :=
  match get_composition_status_try sdk task_id with
  | .ok r => .ok r
  | .error e => .error (.exc ("Failed to check composition status: " ++ e.str))

end ElevenLabsClient

/-- Embeds one value of the `tasks` dict in `main.py` (the composition job
record). `created_at` is not modeled: no claim reads it. (Named
`TaskRecord` because `Task` is taken by the Lean core library.) -/
structure TaskRecord where
  status : String
  progress : Option Int := none
  message : Option String := none
  composition_plan : Option CompositionPlan := none
  response : Option RemoteResponse := none
deriving DecidableEq

/-- The `tasks` dict: an association list keyed by task id, in insertion
order. -/
abbrev TaskStore := List (String × TaskRecord)

/-- Python dict lookup `d.get(k)` over an association list. -/
def dictGet {α : Type} (k : String) : List (String × α) → Option α
  | [] => none
  | (a, v) :: rest => if a = k then some v else dictGet k rest

/-- Dict assignment `tasks[task_id] = task`: replace in place when the key
exists, append otherwise (Python dicts preserve insertion order). -/
def setTask (s : TaskStore) (k : String) (t : TaskRecord) : TaskStore :=
  if (dictGet k s).isSome then
    s.map fun p => if p.1 = k then (k, t) else p
  else s ++ [(k, t)]

/-- Embeds `models.StatusResponse`. -/
structure StatusResponse where
  task_id : String
  status : String
  progress : Option Int := none
  message : Option String := none
deriving DecidableEq

/-- Embeds `models.GenerateMusicResponse`. -/
structure GenerateMusicResponse where
  task_id : String
  status : String
  message : String
deriving DecidableEq

/-- An HTTP error response raised via `HTTPException`. -/
structure HttpErr where
  status_code : Nat
  detail : String
deriving DecidableEq

/-- Embeds `main.py::generate_music`. `clientInit` is whether the module
global `elevenlabs_client` initialized; `compose_result` is the outcome of
`elevenlabs_client.compose_detailed` (`.error m` embeds it raising, which
the surrounding `except` turns into a 500); `freshId` is the value
`str(uuid.uuid4())` would produce. Returns the updated store and the
response body, or the raised `HTTPException`. -/
def generate_music (clientInit : Bool) (tasks : TaskStore)
    (request : MusicGenerationRequest)
    (compose_result : Except String RemoteResponse) (freshId : String) :
    Except HttpErr (TaskStore × GenerateMusicResponse) :=
  if clientInit = false then
    .error ⟨500, "ElevenLabs client not initialized. Check API key configuration."⟩
  else
    let composition_plan := format_composition_plan request
    match compose_result with
    | .error e => .error ⟨500, e⟩
    | .ok response =>
        let task_id := response.task_id
        let has_audio := hasAudio response
        if has_audio && task_id.isNone then
          let task_id := freshId
          let store := setTask tasks task_id
            { status := "completed"
            , composition_plan := some composition_plan
            , response := some response }
          .ok (store, ⟨task_id, "completed", "Music generation completed"⟩)
        else
          let task_id := task_id.getD freshId
          let store := setTask tasks task_id
            { status := "pending"
            , composition_plan := some composition_plan
            , response := some response }
          .ok (store, ⟨task_id, "pending", "Music generation started"⟩)

/-- Embeds `main.py::get_status`. The result carries, besides the updated
store and the response body, the task id with which a remote status query
was issued (`none` when no remote call was made) — an observation channel
recording the argument of the single `get_composition_status` call site. -/
def get_status (clientInit : Bool) (tasks : TaskStore) (task_id : String)
    (sdk : SDK) :
    Except HttpErr (TaskStore × StatusResponse × Option String) :=
  if clientInit = false then
    .error ⟨500, "ElevenLabs client not initialized"⟩
  else
    match dictGet task_id tasks with
    | none => .error ⟨404, "Task not found"⟩
    | some task =>
        let current_status := task.status
        if current_status = "completed" ∨ current_status = "failed" then
          .ok (tasks,
               { task_id := task_id, status := current_status,
                 message := some (task.message.getD "") },
               none)
        else
          match ElevenLabsClient.get_composition_status sdk task_id with
          | .ok status_response =>
              let new_status := status_response.status.getD "processing"
              let task1 : TaskRecord :=
                { task with
                  status := new_status
                , progress :=
                    match status_response.progress with
                    | some p => some p
                    | none => task.progress }
              let task2 : TaskRecord :=
                if new_status = "completed" then
                  { task1 with
                    status := "completed",
                    message := some "Music generation completed" }
                else if new_status = "failed" then
                  { task1 with
                    status := "failed",
                    message := some (status_response.message.getD
                      "Music generation failed") }
                else task1
              .ok (setTask tasks task_id task2,
                   { task_id := task_id, status := task2.status,
                     progress := task2.progress, message := task2.message },
                   some task_id)
          | .error (.notImplemented _) =>
              .ok (tasks,
                   { task_id := task_id, status := "processing",
                     message := some
                       "Status checking not available - assuming processing" },
                   some task_id)
          | .error (.exc m) =>
              .ok (tasks,
                   { task_id := task_id, status := current_status,
                     message := some ("Error checking status: " ++ m) },
                   some task_id)

/-- Embeds `main.py::download_music`. `fetch_audio` is the outcome of
`elevenlabs_client.get_composition_audio` per task id; the returned bytes
are the streamed payload. Python `if not audio_data` treats empty bytes
as absent, which is made explicit. -/
def download_music (clientInit : Bool) (tasks : TaskStore) (task_id : String)
    (fetch_audio : String → Except String (List Nat)) :
    Except HttpErr (List Nat) :=
  if clientInit = false then
    .error ⟨500, "ElevenLabs client not initialized"⟩
  else
    match dictGet task_id tasks with
    | none => .error ⟨404, "Task not found"⟩
    | some task =>
        if task.status ≠ "completed" then
          .error ⟨400, "Task not completed. Current status: " ++ task.status⟩
        else
          let audio_data : Option (List Nat) :=
            match task.response with
            | some r =>
                match r.audio with
                | some bs => some bs
                | none => r.data
            | none => none
          let audio_data : Option (List Nat) :=
            match audio_data with
            | some bs => if bs = [] then none else some bs
            | none => none
          match audio_data with
          | some bs => .ok bs
          | none =>
              match fetch_audio task_id with
              | .ok bs => .ok bs
              | .error e => .error ⟨500, "Failed to retrieve audio: " ++ e⟩

/-- Embeds one value of the `voice_conversion_jobs` dict in `main.py`.
`created_at` is not modeled: no claim reads it. -/
structure ConvJob where
  status : String
  message : Option String := none
  input_file_path : String := ""
  temp_dir : String := ""
  output_path : Option String := none
  error : Option String := none
deriving DecidableEq

/-- The `voice_conversion_jobs` dict as an association list. -/
abbrev ConvStore := List (String × ConvJob)

/-- Outcome of one best-effort `ffmpeg` subprocess call in
`process_voice_conversion`: success, a `CalledProcessError` or
`FileNotFoundError` (caught locally, execution falls through), or any
other exception (propagates to the outer handler) with its `str`. -/
inductive StepResult where
  | ok
  | recoverable
  | fatal (msg : String)
deriving DecidableEq

/-- Environment of one run of the conversion pipeline: the input-suffix
test and the outcome of each fallible stage. `convert_voice` is the
outcome of `rvc_client.convert_voice` (`.error m` embeds it raising an
exception whose `str` is `m`). -/
structure ConvEnv where
  input_is_wav : Bool
  ffmpeg_to_wav : StepResult
  convert_voice : Except String Unit
  ffmpeg_to_mp3 : StepResult

/-- The record written by the `except` clause of
`process_voice_conversion`. -/
def convJobFailed (j : ConvJob) (m : String) : ConvJob :=
  { j with
    status := "failed",
    message := some ("Processing failed: " ++ m),
    error := some m }

/-- Embeds `main.py::process_voice_conversion` run on an existing job
record. Returns the final record together with the ordered list of values
assigned to the record's `status` field during the run (its status-write
trace). The function is total: the `try/except` in the source means no
exception escapes the background task, which the embedding renders as a
plain (non-`Except`) return type. -/
def process_voice_conversion (env : ConvEnv) (job_id : String)
    (temp_dir : String) (job : ConvJob) : ConvJob × List String :=
  let j0 : ConvJob :=
    { job with
      status := "processing",
      message := some "Starting voice conversion..." }
  let step_to_wav : Except String Unit :=
    if env.input_is_wav then .ok ()
    else
      match env.ffmpeg_to_wav with
      | .fatal m => .error m
      | _ => .ok ()
  match step_to_wav with
  | .error m => (convJobFailed j0 m, ["processing", "failed"])
  | .ok _ =>
      match env.convert_voice with
      | .error m => (convJobFailed j0 m, ["processing", "failed"])
      | .ok _ =>
          let output_wav_path := temp_dir ++ "/output_" ++ job_id ++ ".wav"
          let output_mp3_path := temp_dir ++ "/output_" ++ job_id ++ ".mp3"
          match env.ffmpeg_to_mp3 with
          | .fatal m => (convJobFailed j0 m, ["processing", "failed"])
          | .ok =>
              ({ j0 with
                 output_path := some output_mp3_path,
                 status := "completed",
                 message := some "Voice conversion completed!" },
               ["processing", "completed"])
          | .recoverable =>
              ({ j0 with
                 output_path := some output_wav_path,
                 status := "completed",
                 message := some "Voice conversion completed!" },
               ["processing", "completed"])

/-- The `str` of the first exception of a pipeline run that reaches the
outer `except` clause, if any. -/
def firstFatal (env : ConvEnv) : Option String :=
  match (if env.input_is_wav then StepResult.ok else env.ffmpeg_to_wav) with
  | .fatal m => some m
  | _ =>
      match env.convert_voice with
      | .error m => some m
      | .ok _ =>
          match env.ffmpeg_to_mp3 with
          | .fatal m => some m
          | _ => none

/-- Embeds `models.VoiceConversionStatusResponse`. -/
structure VoiceConversionStatusResponse where
  job_id : String
  status : String
  progress : Option Int := none
  message : String
deriving DecidableEq

/-- Embeds `main.py::get_voice_conversion_status`: a pure read of the job
store. -/
def get_voice_conversion_status (jobs : ConvStore) (job_id : String) :
    Except HttpErr VoiceConversionStatusResponse :=
  match dictGet job_id jobs with
  | none => .error ⟨404, "Job not found"⟩
  | some job =>
      let progress : Option Int :=
        if job.status = "processing" then some 50 else none
      .ok { job_id := job_id, status := job.status, progress := progress,
            message := job.message.getD "" }

/-- Embeds `main.py::download_voice_conversion`. `file_exists` embeds
`os.path.exists`; `read_file` the `aiofiles` read (`.error m` embeds it
raising). Python falsiness of an empty `output_path` string is explicit. -/
def download_voice_conversion (jobs : ConvStore) (job_id : String)
    (file_exists : String → Bool)
    (read_file : String → Except String (List Nat)) :
    Except HttpErr (List Nat) :=
  match dictGet job_id jobs with
  | none => .error ⟨404, "Job not found"⟩
  | some job =>
      if job.status ≠ "completed" then
        .error ⟨400, "Job not completed. Current status: " ++ job.status⟩
      else
        match job.output_path with
        | none => .error ⟨404, "Output file not found"⟩
        | some output_path =>
            if output_path = "" ∨ file_exists output_path = false then
              .error ⟨404, "Output file not found"⟩
            else
              match read_file output_path with
              | .ok bs => .ok bs
              | .error e => .error ⟨500, "Failed to retrieve audio: " ++ e⟩

/-- Raw (pre-validation) shape of a composition submission body, embedding
the payload as the pydantic validators of `models.MusicGenerationRequest`
see it. -/
structure RawRequest where
  is_instrumental : Bool
  vocal_gender : Option String := none
  lyrics : Option String := none
  style : String
  duration_seconds : Int
deriving DecidableEq

/-- Embeds `models.py::MusicGenerationRequest.validate_vocal_gender`. -/
def validate_vocal_gender (is_instrumental : Bool) (v : Option String) :
    Except String (Option String) :=
  if is_instrumental = false ∧ v = none then
    .error "vocal_gender is required when is_instrumental is False"
  else if is_instrumental = true ∧ v ≠ none then
    .error "vocal_gender should not be provided when is_instrumental is True"
  else .ok v

/-- Python test `v is None or v.strip() == ''` from `validate_lyrics`. -/
def lyricsMissing (v : Option String) : Bool :=
  match v with
  | none => true
  | some s => pyStrip s = ""

/-- Embeds `models.py::MusicGenerationRequest.validate_lyrics` (Python
`v is None or v.strip() == ''`). -/
def validate_lyrics (is_instrumental : Bool) (v : Option String) :
    Except String (Option String) :=
  if is_instrumental = false ∧ lyricsMissing v = true then
    .error "lyrics is required when is_instrumental is False"
  else if is_instrumental = true ∧ v ≠ none then
    .error "lyrics should not be provided when is_instrumental is True"
  else .ok v

/-- Embeds pydantic validation of `models.MusicGenerationRequest`: the
declared field constraints (`Literal` for `vocal_gender`,
`max_length=200` for `lyrics`, `min_length=1` for `style`,
`ge=5`/`le=60` for `duration_seconds`) and the two field validators, in
field-declaration order; the first failure rejects the request. -/
def validateRequest (r : RawRequest) : Except String MusicGenerationRequest :=
  let vgTy : Except String (Option String) :=
    match r.vocal_gender with
    | some v =>
        if v = "male" ∨ v = "female" then .ok (some v)
        else .error "Input should be male or female"
    | none => .ok none
  match vgTy with
  | .error e => .error e
  | .ok vg0 =>
  match validate_vocal_gender r.is_instrumental vg0 with
  | .error e => .error e
  | .ok vg =>
  let lyTy : Except String (Option String) :=
    match r.lyrics with
    | some s =>
        if s.length ≤ 200 then .ok (some s)
        else .error "String should have at most 200 characters"
    | none => .ok none
  match lyTy with
  | .error e => .error e
  | .ok ly0 =>
  match validate_lyrics r.is_instrumental ly0 with
  | .error e => .error e
  | .ok ly =>
  if r.style.length < 1 then
    .error "String should have at least 1 character"
  else if r.duration_seconds < 5 ∨ 60 < r.duration_seconds then
    .error "duration_seconds out of range"
  else
    .ok { is_instrumental := r.is_instrumental, vocal_gender := vg,
          lyrics := ly, style := r.style,
          duration_seconds := r.duration_seconds }

/-- Rank of a status in the lifecycle order
pending < processing < {completed, failed}. -/
def statusRank (s : String) : Nat :=
  if s = "pending" then 0 else if s = "processing" then 1 else 2

/-- Status field of the response body of a poll, when the poll did not
raise. -/
def pollResultStatus
    (r : Except HttpErr (TaskStore × StatusResponse × Option String)) :
    Option String :=
  match r with
  | .ok (_, resp, _) => some resp.status
  | .error _ => none

/-- Store left behind by a poll (the empty store when the poll raised,
which never occurs in the uses below). -/
def pollResultStore
    (r : Except HttpErr (TaskStore × StatusResponse × Option String)) :
    TaskStore :=
  match r with
  | .ok (s, _, _) => s
  | .error _ => []

/-- Status recorded in the store for a given id after a poll. -/
def pollStoredStatus
    (r : Except HttpErr (TaskStore × StatusResponse × Option String))
    (tid : String) : Option String :=
  (dictGet tid (pollResultStore r)).map fun t => t.status

/-- An SDK whose status method exists and reports the given status value
for every task id. -/
def sdkReporting (s : String) : SDK :=
  { hasGetStatus := true
  , hasGetCompositionStatus := false
  , get_status_result := fun _ => .ok { status := some s }
  , get_composition_status_result := fun _ => .ok {} }

/-- An SDK exposing neither status-check method. -/
def sdkNoStatusMethods : SDK :=
  { hasGetStatus := false
  , hasGetCompositionStatus := false
  , get_status_result := fun _ => .ok {}
  , get_composition_status_result := fun _ => .ok {} }

/-- A store holding one composition job whose recorded status is
pending. -/
def storePending : TaskStore := [("t1", { status := "pending" })]

theorem lookup_map_replace (s : TaskStore) (k : String) (t : TaskRecord)
    (h : (dictGet k s).isSome = true) :
    dictGet k (s.map fun p => if p.1 = k then (k, t) else p) = some t := by
  induction s with
  | nil => simp [dictGet] at h
  | cons hd tl ih =>
      obtain ⟨a, b⟩ := hd
      have hfst : (Prod.fst (a, b) : String) = a := rfl
      simp only [List.map_cons, hfst]
      simp only [dictGet] at h
      by_cases hak : a = k
      · subst hak
        rw [if_pos rfl]
        simp [dictGet]
      · rw [if_neg hak]
        rw [if_neg hak] at h
        simp only [dictGet]
        rw [if_neg hak]
        exact ih h

theorem lookup_append_single (s : TaskStore) (k : String) (t : TaskRecord)
    (h : dictGet k s = none) :
    dictGet k (s ++ [(k, t)]) = some t := by
  induction s with
  | nil => simp [dictGet]
  | cons hd tl ih =>
      obtain ⟨a, b⟩ := hd
      simp only [dictGet, List.cons_append] at h ⊢
      by_cases hak : a = k
      · rw [if_pos hak] at h
        exact absurd h (by simp)
      · rw [if_neg hak] at h ⊢
        exact ih h

/-- After `tasks[k] = t`, looking up `k` yields `t`. -/
theorem lookup_setTask (s : TaskStore) (k : String) (t : TaskRecord) :
    dictGet k (setTask s k t) = some t := by
  unfold setTask
  by_cases h : (dictGet k s).isSome = true
  · rw [if_pos h]
    exact lookup_map_replace s k t h
  · rw [if_neg h]
    exact lookup_append_single s k t
      (by simpa [Option.not_isSome_iff_eq_none] using h)

/-- The wrapped pipeline-failure message is never the empty string. -/
theorem processing_failed_message_ne_empty (m : String) :
    ("Processing failed: " ++ m) ≠ "" := by
  intro h
  have hlen := congrArg String.length h
  rw [String.length_append] at hlen
  have h1 : ("Processing failed: " : String).length = 19 := rfl
  have h2 : ("" : String).length = 0 := rfl
  rw [h1, h2] at hlen
  omega

/-- The request of concrete scenario A of the spec. -/
def requestA : MusicGenerationRequest :=
  { is_instrumental := true
  , style := "50s soul, saxophone, drums"
  , duration_seconds := 30 }

/-- The request of concrete scenario B of the spec, parameterized by the
vocal gender (which validation forces to be supplied). -/
def requestB (vg : String) : MusicGenerationRequest :=
  { is_instrumental := false
  , vocal_gender := some vg
  , lyrics := some "I will conquer!"
  , style := "intense, fast-paced electronic, driving synth arpeggios"
  , duration_seconds := 10 }

/-- The `get_composition_status` wrapper in `elevenlabs_client.py` never
lets a `NotImplementedError` escape: its blanket `except Exception`
re-raises everything as a plain `Exception`, so the dedicated
`except NotImplementedError` handler in `main.py::get_status` is
unreachable. -/
theorem get_composition_status_never_notImplemented (sdk : SDK)
    (tid m : String) :
    ElevenLabsClient.get_composition_status sdk tid ≠
      .error (.notImplemented m) := by
  unfold ElevenLabsClient.get_composition_status
  cases ElevenLabsClient.get_composition_status_try sdk tid <;> simp

/-- C6: for the composition request of scenario A (instrumental, style
"50s soul, saxophone, drums", 30 seconds), the formatted plan has exactly
one section, with duration 30000 ms, no lines, a "no vocals" marker among
the negative local styles, and no positive global styles. -/
theorem c6_scenario_A_plan :
    ∃ sec,
      (format_composition_plan requestA).sections = [sec] ∧
      sec.duration_ms = 30000 ∧
      sec.lines = [] ∧
      "no vocals" ∈ sec.negative_local_styles ∧
      (format_composition_plan requestA).positive_global_styles = [] := by
  refine ⟨_, rfl, ?_, ?_, ?_, ?_⟩ <;> decide

/-- C7: for the composition request of scenario B (vocal, lyrics
"I will conquer!", style "intense, fast-paced electronic, driving synth
arpeggios", 10 seconds, either vocal gender), the formatted plan has one
section with duration 10000 ms, the single lyrics line, exactly the three
comma-split positive local styles, and a gender-qualified vocal marker as
the positive global styles. -/
theorem c7_scenario_B_plan (vg : String)
    (h : vg = "male" ∨ vg = "female") :
    ∃ sec,
      (format_composition_plan (requestB vg)).sections = [sec] ∧
      sec.duration_ms = 10000 ∧
      sec.lines = ["I will conquer!"] ∧
      sec.positive_local_styles =
        ["intense", "fast-paced electronic", "driving synth arpeggios"] ∧
      sec.positive_local_styles.length = 3 ∧
      (format_composition_plan (requestB vg)).positive_global_styles =
        [vg ++ " vocal"] := by
  rcases h with h | h <;> subst h <;>
    exact ⟨_, rfl, by decide, by decide, by decide, by decide, by decide⟩

/-- C7 witness: scenario B evaluated at vocal gender "male". -/
theorem c7_scenario_B_plan_witness :
    ∃ sec,
      (format_composition_plan (requestB "male")).sections = [sec] ∧
      sec.duration_ms = 10000 ∧
      sec.lines = ["I will conquer!"] ∧
      sec.positive_local_styles =
        ["intense", "fast-paced electronic", "driving synth arpeggios"] ∧
      sec.positive_local_styles.length = 3 ∧
      (format_composition_plan (requestB "male")).positive_global_styles =
        ["male" ++ " vocal"] :=
  c7_scenario_B_plan "male" (Or.inl rfl)

/-- C1 counterexample: a composition job polled while the remote reports
"processing" and then "pending" is observed as processing and then
pending — the status sequence rewinds below its previous rank, refuting
monotonicity of the polled status sequence. -/
theorem c1_counterexample :
    pollResultStatus (get_status true storePending "t1"
      (sdkReporting "processing")) = some "processing" ∧
    pollResultStatus (get_status true
      (pollResultStore (get_status true storePending "t1"
        (sdkReporting "processing")))
      "t1" (sdkReporting "pending")) = some "pending" ∧
    statusRank "pending" < statusRank "processing" := by
  refine ⟨?_, ?_, ?_⟩ <;> decide

/-- C2 counterexample: a poll of a pending composition job that receives
the remote status "queued" — a value outside
{pending, processing, completed, failed} — records and returns "queued"
itself, not "processing". -/
theorem c2_counterexample :
    pollResultStatus (get_status true storePending "t1"
      (sdkReporting "queued")) = some "queued" ∧
    pollStoredStatus (get_status true storePending "t1"
      (sdkReporting "queued")) "t1" = some "queued" ∧
    some "queued" ≠ some "processing" := by
  refine ⟨?_, ?_, ?_⟩ <;> decide

/-- C8: evaluation at the failing input. When the SDK exposes neither
status-check method, the intended `except NotImplementedError` branch of
`get_status` (which would report "processing" with an explanatory message)
is never reached, because the client wrapper re-raises the
`NotImplementedError` as a plain exception; the poll instead surfaces the
error-annotated last known status — here "pending", not "processing". -/
theorem c8_not_implemented_failing_input :
    get_status true storePending "t1" sdkNoStatusMethods =
      .ok (storePending,
           { task_id := "t1", status := "pending",
             message := some ("Error checking status: " ++
               "Failed to check composition status: " ++
               "Status checking method not found in SDK") },
           some "t1") ∧
    "pending" ≠ "processing" := by
  refine ⟨rfl, by decide⟩

/-- C4: for a composition job whose stored status is not terminal, a poll
whose remote status query raises leaves the store unchanged and returns
the last known status annotated with an advisory error message; the job is
not marked failed by the remote failure. -/
theorem c4_poll_error_leaves_status (tasks : TaskStore) (tid : String)
    (t : TaskRecord) (sdk : SDK) (m : String)
    (hl : dictGet tid tasks = some t)
    (ht : ¬(t.status = "completed" ∨ t.status = "failed"))
    (hc : ElevenLabsClient.get_composition_status sdk tid = .error (.exc m)) :
    get_status true tasks tid sdk =
      .ok (tasks,
           { task_id := tid, status := t.status,
             message := some ("Error checking status: " ++ m) },
           some tid) := by
  simp only [get_status, hl, hc, if_neg ht]
  simp

/-- An SDK whose status method exists and raises with message "boom" for
every task id. -/
def sdkRaising : SDK :=
  { hasGetStatus := true
  , hasGetCompositionStatus := false
  , get_status_result := fun _ => .error "boom"
  , get_composition_status_result := fun _ => .ok {} }

/-- C4 witness: polling a pending job while the remote raises returns the
stored status annotated with the error and leaves the store unchanged. -/
theorem c4_poll_error_leaves_status_witness :
    get_status true storePending "t1" sdkRaising =
      .ok (storePending,
           { task_id := "t1", status := "pending",
             message := some ("Error checking status: " ++
               "Failed to check composition status: boom") },
           some "t1") :=
  c4_poll_error_leaves_status storePending "t1" { status := "pending" }
    sdkRaising "Failed to check composition status: boom"
    (by decide) (by decide) rfl

/-- C2 amended: for a non-terminal composition job whose remote status
query succeeds, the poll records and returns the raw remote status value
whenever one is present and is not "completed" or "failed" — including
values outside the four-state vocabulary — and defaults to "processing"
only when the remote response carries no status field at all. -/
theorem c2_amended_raw_status_recorded (tasks : TaskStore) (tid : String)
    (t : TaskRecord) (sdk : SDK) (r : StatusResponseRemote)
    (hl : dictGet tid tasks = some t)
    (ht : ¬(t.status = "completed" ∨ t.status = "failed"))
    (hc : ElevenLabsClient.get_composition_status sdk tid = .ok r) :
    (r.status = none →
      pollResultStatus (get_status true tasks tid sdk) = some "processing" ∧
      pollStoredStatus (get_status true tasks tid sdk) tid =
        some "processing") ∧
    (∀ s, r.status = some s → s ≠ "completed" → s ≠ "failed" →
      pollResultStatus (get_status true tasks tid sdk) = some s ∧
      pollStoredStatus (get_status true tasks tid sdk) tid = some s) := by
  constructor
  · intro hrn
    simp only [pollResultStatus, pollStoredStatus, pollResultStore,
      get_status, hl, hc, if_neg ht, hrn, Option.getD_none]
    simp [lookup_setTask]
  · intro s hrs hnc hnf
    simp only [pollResultStatus, pollStoredStatus, pollResultStore,
      get_status, hl, hc, if_neg ht, hrs, Option.getD_some,
      if_neg hnc, if_neg hnf]
    simp [lookup_setTask]

/-- C2 witness: the amended behavior evaluated at remote status
"queued". -/
theorem c2_amended_raw_status_recorded_witness :
    pollResultStatus (get_status true storePending "t1"
      (sdkReporting "queued")) = some "queued" ∧
    pollStoredStatus (get_status true storePending "t1"
      (sdkReporting "queued")) "t1" = some "queued" :=
  (c2_amended_raw_status_recorded storePending "t1" { status := "pending" }
    (sdkReporting "queued") { status := some "queued" }
    (by decide) (by decide) rfl).2 "queued" rfl (by decide) (by decide)

/-- C1 amended: terminal statuses are absorbing — a poll of a composition
job stored as "completed" or "failed" returns that status and leaves the
store unchanged — and a conversion job's status writes are the monotone
sequence processing-then-terminal, read back verbatim by the conversion
status poll; but a non-terminal composition status follows the raw remote
value and is not monotone (see the counterexample). -/
theorem c1_amended_terminal_absorbing_conversion_monotone :
    (∀ (tasks : TaskStore) (tid : String) (t : TaskRecord) (sdk : SDK),
      dictGet tid tasks = some t →
      (t.status = "completed" ∨ t.status = "failed") →
      get_status true tasks tid sdk =
        .ok (tasks,
             { task_id := tid, status := t.status,
               message := some (t.message.getD "") },
             none)) ∧
    (∀ (env : ConvEnv) (jid td : String) (job : ConvJob),
      ((process_voice_conversion env jid td job).1.status = "completed" ∨
        (process_voice_conversion env jid td job).1.status = "failed") ∧
      (process_voice_conversion env jid td job).2 =
        ["processing", (process_voice_conversion env jid td job).1.status] ∧
      List.Chain' (fun a b => statusRank a ≤ statusRank b)
        ("pending" :: (process_voice_conversion env jid td job).2)) ∧
    (∀ (jobs : ConvStore) (jid : String) (j : ConvJob),
      dictGet jid jobs = some j →
      ∃ resp, get_voice_conversion_status jobs jid = .ok resp ∧
        resp.status = j.status) := by
  refine ⟨?_, ?_, ?_⟩
  · intro tasks tid t sdk hl htm
    simp only [get_status, hl, if_pos htm]
    simp
  · intro env jid td job
    obtain ⟨iw, fw, cv, fm⟩ := env
    cases iw <;> cases fw <;> cases cv <;> cases fm <;>
      simp [process_voice_conversion, convJobFailed, statusRank,
        List.chain'_cons]
  · intro jobs jid j hl
    exact ⟨{ job_id := jid, status := j.status,
             progress := if j.status = "processing" then some 50 else none,
             message := j.message.getD "" },
           by simp only [get_voice_conversion_status, hl], rfl⟩

/-- C1 witness: terminal absorption evaluated on a completed job, and the
conversion poll read evaluated on a processing job. -/
theorem c1_amended_witness :
    (get_status true [("a", ({ status := "completed" } : TaskRecord))] "a"
      (sdkReporting "pending") =
      .ok ([("a", ({ status := "completed" } : TaskRecord))],
           { task_id := "a", status := "completed", message := some "" },
           none)) ∧
    (∃ resp, get_voice_conversion_status
        [("b", ({ status := "processing" } : ConvJob))] "b" = .ok resp ∧
      resp.status = "processing") :=
  ⟨c1_amended_terminal_absorbing_conversion_monotone.1
      [("a", { status := "completed" })] "a" { status := "completed" }
      (sdkReporting "pending") (by decide) (Or.inl rfl),
   c1_amended_terminal_absorbing_conversion_monotone.2.2
      [("b", { status := "processing" })] "b" { status := "processing" }
      (by decide)⟩

/-- C3: if any fallible stage of the conversion pipeline raises, the job
record ends with status "failed", a non-empty message carrying the
captured error text, and the error field set; the status-write trace is
exactly processing-then-failed, and the pipeline function being total is
the formal rendering of the exception not propagating out of the
background task. -/
theorem c3_pipeline_failure_sets_failed (env : ConvEnv) (jid td : String)
    (job : ConvJob) (m : String) (h : firstFatal env = some m) :
    (process_voice_conversion env jid td job).1.status = "failed" ∧
    (process_voice_conversion env jid td job).1.message =
      some ("Processing failed: " ++ m) ∧
    (process_voice_conversion env jid td job).1.error = some m ∧
    ("Processing failed: " ++ m) ≠ "" ∧
    (process_voice_conversion env jid td job).2 =
      ["processing", "failed"] := by
  obtain ⟨iw, fw, cv, fm⟩ := env
  cases iw <;> cases fw <;> cases cv <;> cases fm <;>
    simp [firstFatal] at h <;>
    simp [process_voice_conversion, convJobFailed, h,
      processing_failed_message_ne_empty]

/-- A pipeline environment whose engine conversion stage raises. -/
def envConvertFails : ConvEnv :=
  { input_is_wav := true
  , ffmpeg_to_wav := .ok
  , convert_voice := .error "conversion crashed"
  , ffmpeg_to_mp3 := .ok }

/-- C3 witness: a run whose conversion stage raises ends failed with the
captured message. -/
theorem c3_pipeline_failure_sets_failed_witness :
    (process_voice_conversion envConvertFails "j1" "/tmp/dir"
      { status := "pending" }).1.status = "failed" ∧
    (process_voice_conversion envConvertFails "j1" "/tmp/dir"
      { status := "pending" }).1.message =
      some ("Processing failed: " ++ "conversion crashed") ∧
    (process_voice_conversion envConvertFails "j1" "/tmp/dir"
      { status := "pending" }).1.error = some "conversion crashed" ∧
    ("Processing failed: " ++ "conversion crashed") ≠ "" ∧
    (process_voice_conversion envConvertFails "j1" "/tmp/dir"
      { status := "pending" }).2 = ["processing", "failed"] :=
  c3_pipeline_failure_sets_failed envConvertFails "j1" "/tmp/dir"
    { status := "pending" } "conversion crashed" rfl

/-- C5: validation rejects an instrumental request carrying a non-empty
lyrics field, and rejects a non-instrumental request whose lyrics are
absent or whitespace-only; in both cases no job is created (the request
fails before `generate_music` runs). -/
theorem c5_validation_rejects (r : RawRequest) :
    (r.is_instrumental = true → ∀ l, r.lyrics = some l → l ≠ "" →
      ∃ e, validateRequest r = .error e) ∧
    (r.is_instrumental = false → lyricsMissing r.lyrics = true →
      ∃ e, validateRequest r = .error e) := by
  obtain ⟨ii, vg, ly, st, d⟩ := r
  constructor
  · rintro hii l hl hne
    simp only at hii hl
    subst hii
    subst hl
    simp only [validateRequest]
    cases vg with
    | none =>
        by_cases hlen : l.length ≤ 200
        · simp [validate_vocal_gender, validate_lyrics, hlen]
        · simp [validate_vocal_gender, hlen]
    | some v =>
        by_cases hv : v = "male" ∨ v = "female"
        · simp [hv, validate_vocal_gender]
        · simp [hv]
  · rintro hii hmiss
    simp only at hii hmiss
    subst hii
    simp only [validateRequest]
    cases vg with
    | none => simp [validate_vocal_gender]
    | some v =>
        by_cases hv : v = "male" ∨ v = "female"
        · cases ly with
          | none => simp [hv, validate_vocal_gender, validate_lyrics, hmiss]
          | some s =>
              by_cases hlen : s.length ≤ 200
              · simp [hv, validate_vocal_gender, validate_lyrics, hlen,
                  hmiss]
              · simp [hv, validate_vocal_gender, hlen]
        · simp [hv]

/-- C5 witness: an instrumental request with lyrics and a vocal request
with whitespace-only lyrics are both rejected. -/
theorem c5_validation_rejects_witness :
    (∃ e, validateRequest
      { is_instrumental := true, lyrics := some "la la",
        style := "jazz", duration_seconds := 30 } = .error e) ∧
    (∃ e, validateRequest
      { is_instrumental := false, vocal_gender := some "male",
        lyrics := some "   ", style := "jazz",
        duration_seconds := 30 } = .error e) :=
  ⟨(c5_validation_rejects _).1 rfl "la la" rfl (by decide),
   (c5_validation_rejects _).2 rfl (by decide)⟩

/-- C9: on both workflows the artifact fetch returns no byte stream in
the guarded cases — 404 for an unknown id, 400 when the job exists but is
not completed, and (conversion) 404 when the stored output reference is
absent or no longer names an existing file. -/
theorem c9_artifact_fetch_guards :
    (∀ (tasks : TaskStore) (tid : String)
        (fetch : String → Except String (List Nat)),
      dictGet tid tasks = none →
      download_music true tasks tid fetch =
        .error ⟨404, "Task not found"⟩) ∧
    (∀ (tasks : TaskStore) (tid : String) (t : TaskRecord)
        (fetch : String → Except String (List Nat)),
      dictGet tid tasks = some t → t.status ≠ "completed" →
      download_music true tasks tid fetch =
        .error ⟨400, "Task not completed. Current status: " ++ t.status⟩) ∧
    (∀ (jobs : ConvStore) (jid : String) (fe : String → Bool)
        (rf : String → Except String (List Nat)),
      dictGet jid jobs = none →
      download_voice_conversion jobs jid fe rf =
        .error ⟨404, "Job not found"⟩) ∧
    (∀ (jobs : ConvStore) (jid : String) (j : ConvJob)
        (fe : String → Bool) (rf : String → Except String (List Nat)),
      dictGet jid jobs = some j → j.status ≠ "completed" →
      download_voice_conversion jobs jid fe rf =
        .error ⟨400, "Job not completed. Current status: " ++ j.status⟩) ∧
    (∀ (jobs : ConvStore) (jid : String) (j : ConvJob)
        (fe : String → Bool) (rf : String → Except String (List Nat)),
      dictGet jid jobs = some j → j.status = "completed" →
      (j.output_path = none ∨
        ∃ p, j.output_path = some p ∧ (p = "" ∨ fe p = false)) →
      download_voice_conversion jobs jid fe rf =
        .error ⟨404, "Output file not found"⟩) := by
  refine ⟨?_, ?_, ?_, ?_, ?_⟩
  · intro tasks tid fetch h
    simp [download_music, h]
  · intro tasks tid t fetch h1 h2
    simp only [download_music, h1]
    rw [if_pos h2]
    simp
  · intro jobs jid fe rf h
    simp [download_voice_conversion, h]
  · intro jobs jid j fe rf h1 h2
    simp only [download_voice_conversion, h1]
    rw [if_pos h2]
  · intro jobs jid j fe rf h1 h2 h3
    simp only [download_voice_conversion, h1]
    rw [if_neg (by simp [h2])]
    rcases h3 with h3 | ⟨p, hp, hpe⟩
    · rw [h3]
    · rw [hp]
      simp only
      rw [if_pos hpe]

/-- C9 witness: each guard evaluated at a concrete store. -/
theorem c9_artifact_fetch_guards_witness :
    download_music true [] "x" (fun _ => .error "n/a") =
      .error ⟨404, "Task not found"⟩ ∧
    download_music true storePending "t1" (fun _ => .error "n/a") =
      .error ⟨400, "Task not completed. Current status: " ++ "pending"⟩ ∧
    download_voice_conversion [] "y" (fun _ => false)
      (fun _ => .error "n/a") = .error ⟨404, "Job not found"⟩ ∧
    download_voice_conversion [("j", ({ status := "processing" } : ConvJob))]
      "j" (fun _ => false) (fun _ => .error "n/a") =
      .error ⟨400, "Job not completed. Current status: " ++ "processing"⟩ ∧
    download_voice_conversion
      [("k", ({ status := "completed",
                output_path := some "/gone.mp3" } : ConvJob))]
      "k" (fun _ => false) (fun _ => .error "n/a") =
      .error ⟨404, "Output file not found"⟩ :=
  ⟨c9_artifact_fetch_guards.1 [] "x" _ rfl,
   c9_artifact_fetch_guards.2.1 storePending "t1" { status := "pending" } _
     (by decide) (by decide),
   c9_artifact_fetch_guards.2.2.1 [] "y" _ _ rfl,
   c9_artifact_fetch_guards.2.2.2.1 _ "j" { status := "processing" } _ _
     (by decide) (by decide),
   c9_artifact_fetch_guards.2.2.2.2 _ "k"
     { status := "completed", output_path := some "/gone.mp3" } _ _
     (by decide) rfl (Or.inr ⟨"/gone.mp3", rfl, Or.inr rfl⟩)⟩

/-- A poll of a job whose stored status is non-terminal always issues the
remote status query with that job's id, whatever the SDK does. -/
theorem get_status_queries_remote (tasks : TaskStore) (tid : String)
    (t : TaskRecord) (sdk : SDK)
    (hl : dictGet tid tasks = some t)
    (ht : ¬(t.status = "completed" ∨ t.status = "failed")) :
    ∃ s2 r2, get_status true tasks tid sdk = .ok (s2, r2, some tid) := by
  have hb : ¬(true = false) := fun h => Bool.noConfusion h
  cases hcl : ElevenLabsClient.get_composition_status sdk tid with
  | ok r =>
      exact ⟨_, _, by
        simp only [get_status, hl, hcl, if_neg ht, if_neg hb]
        rfl⟩
  | error e =>
      cases e with
      | notImplemented m =>
          exact ⟨_, _, by
            simp only [get_status, hl, hcl, if_neg ht, if_neg hb]
            rfl⟩
      | exc m =>
          exact ⟨_, _, by
            simp only [get_status, hl, hcl, if_neg ht, if_neg hb]
            rfl⟩

/-- C10: when the provider call succeeds but its acknowledgment carries
neither a decodable task id nor embedded audio, submission still records a
job with status "pending" under the freshly generated local UUID and
returns that id; every subsequent poll of that job then issues the remote
status query with this locally invented identifier. -/
theorem c10_unidentified_ack_creates_pending (tasks : TaskStore)
    (request : MusicGenerationRequest) (resp : RemoteResponse)
    (freshId : String)
    (hid : resp.task_id = none) (hau : hasAudio resp = false)
    (hfresh : dictGet freshId tasks = none) :
    ∃ store,
      generate_music true tasks request (.ok resp) freshId =
        .ok (store, { task_id := freshId, status := "pending",
                      message := "Music generation started" }) ∧
      (∃ t, dictGet freshId store = some t ∧ t.status = "pending") ∧
      (∀ sdk : SDK, ∃ s2 r2,
        get_status true store freshId sdk = .ok (s2, r2, some freshId)) := by
  refine ⟨setTask tasks freshId
    { status := "pending"
    , composition_plan := some (format_composition_plan request)
    , response := some resp }, ?_, ?_, ?_⟩
  · simp [generate_music, hid, hau]
  · exact ⟨_, lookup_setTask _ _ _, rfl⟩
  · intro sdk
    exact get_status_queries_remote _ freshId
      { status := "pending"
      , composition_plan := some (format_composition_plan request)
      , response := some resp } sdk
      (lookup_setTask _ _ _) (by simp)

/-- C10 witness: an acknowledgment with no id and no audio, submitted to
an empty store with fresh id "f-1". -/
theorem c10_unidentified_ack_creates_pending_witness :
    ∃ store,
      generate_music true [] requestA (.ok {}) "f-1" =
        .ok (store, { task_id := "f-1", status := "pending",
                      message := "Music generation started" }) ∧
      (∃ t, dictGet "f-1" store = some t ∧ t.status = "pending") ∧
      (∀ sdk : SDK, ∃ s2 r2,
        get_status true store "f-1" sdk = .ok (s2, r2, some "f-1")) :=
  c10_unidentified_ack_creates_pending [] requestA {} "f-1" rfl rfl rfl
